import Mathlib

/-!
Shallow embedding of the lwIP socket-adaptation layer (`src/lib.rs`).

The layer is a stateless shim: every public function forwards a call to one
primitive of the external vendor stack (the `lwip_*` C functions declared in
the generated bindings file) and either returns the primitive's result
unchanged or collapses it to the binary 0 / -1 convention.  The external
stack is modelled as an oracle (`LwipStack`), and each wrapper returns the
value the Rust function returns together with the list of primitive calls it
makes, so that "forwards unconditionally exactly once with the caller's
arguments" is a provable statement about the trace.

Pointers (`*const c_void`, `*mut sockaddr`, ...) are opaque to this layer and
merely forwarded, so they are modelled as machine addresses (`Nat`, with `0`
for the null pointer).  `c_int` / `i32` values are modelled as `Int`
(the layer does no arithmetic on them other than comparison with `0`);
`socklen_t` is unsigned and modelled as `Nat`.
-/

namespace Lwip

/-- Opaque machine pointer; `0` is the null pointer. -/
abbrev Ptr := Nat

/-! ## Errno constants (`src/lib.rs` lines 8-131) -/

def EPERM : Int := 1
def ENOENT : Int := 2
def ESRCH : Int := 3
def EINTR : Int := 4
def E2BIG : Int := 7
def ENOEXEC : Int := 8
def EBADF : Int := 9
def ECHILD : Int := 10
def EAGAIN : Int := 11
def ENOMEM : Int := 12
def EACCES : Int := 13
def EFAULT : Int := 14
def ENOTBLK : Int := 15
def EBUSY : Int := 16
def EEXIST : Int := 17
def EXDEV : Int := 18
def ENODEV : Int := 19
def ENOTDIR : Int := 20
def EISDIR : Int := 21
def EINVAL : Int := 22
def ENFILE : Int := 23
def EMFILE : Int := 24
def ENOTTY : Int := 25
def ETXTBSY : Int := 26
def EFBIG : Int := 27
def ENOSPC : Int := 28
def ESPIPE : Int := 29
def EROFS : Int := 30
def EMLINK : Int := 31
def EPIPE : Int := 32
def EDOM : Int := 33
def ERANGE : Int := 34
def EDEADLK : Int := 35
def ENAMETOOLONG : Int := 36
def ENOLCK : Int := 37
def ENOSYS : Int := 38
def ENOTEMPTY : Int := 39
def ELOOP : Int := 40
def EWOULDBLOCK : Int := EAGAIN
def ENOMSG : Int := 42
def EIDRM : Int := 43
def ECHRNG : Int := 44
def EL2NSYNC : Int := 45
def EL3HLT : Int := 46
def EL3RST : Int := 47
def ELNRNG : Int := 48
def EUNATCH : Int := 49
def ENOCSI : Int := 50
def EL2HLT : Int := 51
def EBADE : Int := 52
def EBADR : Int := 53
def EXFULL : Int := 54
def ENOANO : Int := 55
def EBADRQC : Int := 56
def EBADSLT : Int := 57
def EDEADLOCK : Int := EDEADLK
def EBFONT : Int := 59
def ENOSTR : Int := 60
def ENODATA : Int := 61
def ETIME : Int := 62
def ENOSR : Int := 63
def ENONET : Int := 64
def ENOPKG : Int := 65
def EREMOTE : Int := 66
def ENOLINK : Int := 67
def EADV : Int := 68
def ESRMNT : Int := 69
def ECOMM : Int := 70
def EPROTO : Int := 71
def EMULTIHOP : Int := 72
def EDOTDOT : Int := 73
def EBADMSG : Int := 74
def EOVERFLOW : Int := 75
def ENOTUNIQ : Int := 76
def EBADFD : Int := 77
def EREMCHG : Int := 78
def ELIBACC : Int := 79
def ELIBBAD : Int := 80
def ELIBSCN : Int := 81
def ELIBMAX : Int := 82
def ELIBEXEC : Int := 83
def EILSEQ : Int := 84
def ERESTART : Int := 85
def ESTRPIPE : Int := 86
def EUSERS : Int := 87
def ENOTSOCK : Int := 88
def EDESTADDRREQ : Int := 89
def EMSGSIZE : Int := 90
def EPROTOTYPE : Int := 91
def ENOPROTOOPT : Int := 92
def EPROTONOSUPPORT : Int := 93
def ESOCKTNOSUPPORT : Int := 94
def EOPNOTSUPP : Int := 95
def EPFNOSUPPORT : Int := 96
def EAFNOSUPPORT : Int := 97
def EADDRINUSE : Int := 98
def EADDRNOTAVAIL : Int := 99
def ENETDOWN : Int := 100
def ENETUNREACH : Int := 101
def ENETRESET : Int := 102
def ECONNABORTED : Int := 103
def ECONNRESET : Int := 104
def ENOBUFS : Int := 105
def EISCONN : Int := 106
def ENOTCONN : Int := 107
def ESHUTDOWN : Int := 108
def ETOOMANYREFS : Int := 109
def ETIMEDOUT : Int := 110
def ECONNREFUSED : Int := 111
def EHOSTDOWN : Int := 112
def EHOSTUNREACH : Int := 113
def EALREADY : Int := 114
def EINPROGRESS : Int := 115
def ESTALE : Int := 116
def EUCLEAN : Int := 117
def ENOTNAM : Int := 118
def ENAVAIL : Int := 119
def EISNAM : Int := 120
def EDQUOT : Int := 122
def ENOMEDIUM : Int := 123
def EMEDIUMTYPE : Int := 124

/-- Constant not in the lwIP bindings, needed by the runtime above this layer
(`src/lib.rs` line 146). -/
def IPV6_MULTICAST_LOOP : Int := 19

/-! ## The external stack and the call trace -/

/-- One invocation of an underlying `lwip_*` primitive, with the argument
values the wrapper passed to it. -/
inductive Call where
  | lwip_socket (family socket_type protocol : Int)
  | lwip_setsockopt (sock level optname : Int) (optval : Ptr) (optlen : Nat)
  | lwip_getsockopt (sock level optname : Int) (optval optlen : Ptr)
  | lwip_bind (sock : Int) (name : Ptr) (namelen : Nat)
  | lwip_connect (sock : Int) (name : Ptr) (namelen : Nat)
  | lwip_listen (sock backlog : Int)
  | lwip_accept (sock : Int) (name namelen : Ptr)
  | lwip_getsockname (sock : Int) (name namelen : Ptr)
  | lwip_send (sock : Int) (mem : Ptr) (len : Int) (flags : Int)
  | lwip_sendto (sock : Int) (mem : Ptr) (len : Int) (flags : Int) (toa : Ptr) (tolen : Nat)
  | lwip_recv (sock : Int) (mem : Ptr) (len : Nat) (flags : Int)
  | lwip_recvfrom (sock : Int) (mem : Ptr) (len : Nat) (flags : Int) (fro fromlen : Ptr)
  | lwip_getpeername (sock : Int) (name namelen : Ptr)
  | lwip_freeaddrinfo (ai : Ptr)
  deriving DecidableEq

/-- `true` exactly on a socket-category/option query (`lwip_getsockopt`). -/
def Call.isGetsockopt : Call → Bool
  | .lwip_getsockopt .. => true
  | _ => false

/-- Oracle model of the external vendor stack: the result each `lwip_*`
primitive returns for given arguments (the primitives are external C
functions, out of scope of the repository).  `lwip_recv` / `lwip_recvfrom`
take the unsigned `size_t` length the wrapper casts to. -/
structure LwipStack where
  lwip_socket : Int → Int → Int → Int
  lwip_setsockopt : Int → Int → Int → Ptr → Nat → Int
  lwip_getsockopt : Int → Int → Int → Ptr → Ptr → Int
  lwip_bind : Int → Ptr → Nat → Int
  lwip_connect : Int → Ptr → Nat → Int
  lwip_listen : Int → Int → Int
  lwip_accept : Int → Ptr → Ptr → Int
  lwip_getsockname : Int → Ptr → Ptr → Int
  lwip_send : Int → Ptr → Int → Int → Int
  lwip_sendto : Int → Ptr → Int → Int → Ptr → Nat → Int
  lwip_recv : Int → Ptr → Nat → Int → Int
  lwip_recvfrom : Int → Ptr → Nat → Int → Ptr → Ptr → Int
  lwip_getpeername : Int → Ptr → Ptr → Int

/-- A mock stack whose every primitive returns the constant `k`. -/
def constStack (k : Int) : LwipStack where
  lwip_socket := fun _ _ _ => k
  lwip_setsockopt := fun _ _ _ _ _ => k
  lwip_getsockopt := fun _ _ _ _ _ => k
  lwip_bind := fun _ _ _ => k
  lwip_connect := fun _ _ _ => k
  lwip_listen := fun _ _ => k
  lwip_accept := fun _ _ _ => k
  lwip_getsockname := fun _ _ _ => k
  lwip_send := fun _ _ _ _ => k
  lwip_sendto := fun _ _ _ _ _ _ => k
  lwip_recv := fun _ _ _ _ => k
  lwip_recvfrom := fun _ _ _ _ _ _ => k
  lwip_getpeername := fun _ _ _ => k

/-- A mock stack whose socket-creation primitive returns the protocol
argument it received, so that the value reaching the primitive is visible
in the wrapper's result. -/
def protoStack : LwipStack :=
  { constStack 0 with lwip_socket := fun _ _ protocol => protocol }

/-! ## The wrappers (`src/lib.rs` lines 148-283)

Each definition mirrors one Rust function; the second component records the
primitive calls the function makes, in order.  The Rust two-armed
`match retval { 0 => 0, _ => -1 }` is the conditional
`if retval = 0 then 0 else -1`. -/

/-- `pub fn socket` (lines 148-151): forwards all three arguments to
`lwip_socket` and returns the handle it got back. -/
def socket (S : LwipStack) (family socket_type protocol : Int) : Int × List Call :=
  let socket_handle := S.lwip_socket family socket_type protocol
  (socket_handle, [Call.lwip_socket family socket_type protocol])

/-- `pub fn setsockopt` (lines 153-165): collapses the primitive's result to
0 / -1. -/
def setsockopt (S : LwipStack) (sock level optname : Int) (optval : Ptr)
    (optlen : Nat) : Int × List Call :=
  let retval := S.lwip_setsockopt sock level optname optval optlen
  (if retval = 0 then 0 else -1,
   [Call.lwip_setsockopt sock level optname optval optlen])

/-- `pub fn getsockopt` (lines 167-179): collapses the primitive's result to
0 / -1. -/
def getsockopt (S : LwipStack) (sock level optname : Int) (optval optlen : Ptr) :
    Int × List Call :=
  let retval := S.lwip_getsockopt sock level optname optval optlen
  (if retval = 0 then 0 else -1,
   [Call.lwip_getsockopt sock level optname optval optlen])

/-- `pub fn bind` (lines 181-187): collapses the primitive's result to 0 / -1. -/
def bind (S : LwipStack) (sock : Int) (name : Ptr) (namelen : Nat) : Int × List Call :=
  let retval := S.lwip_bind sock name namelen
  (if retval = 0 then 0 else -1, [Call.lwip_bind sock name namelen])

/-- `pub fn connect` (lines 189-195): collapses the primitive's result to 0 / -1. -/
def connect (S : LwipStack) (sock : Int) (name : Ptr) (namelen : Nat) : Int × List Call :=
  let retval := S.lwip_connect sock name namelen
  (if retval = 0 then 0 else -1, [Call.lwip_connect sock name namelen])

/-- `pub fn listen` (lines 197-203): collapses the primitive's result to 0 / -1. -/
def listen (S : LwipStack) (sock backlog : Int) : Int × List Call :=
  let retval := S.lwip_listen sock backlog
  (if retval = 0 then 0 else -1, [Call.lwip_listen sock backlog])

/-- `pub fn accept` (lines 205-211): as written in the source, it collapses
the primitive's result with the same two-armed match as `bind` / `connect`. -/
def accept (S : LwipStack) (sock : Int) (name namelen : Ptr) : Int × List Call :=
  let retval := S.lwip_accept sock name namelen
  (if retval = 0 then 0 else -1, [Call.lwip_accept sock name namelen])

/-- `pub fn getsockname` (lines 213-218): returns the raw primitive result. -/
def getsockname (S : LwipStack) (sock : Int) (name namelen : Ptr) : Int × List Call :=
  (S.lwip_getsockname sock name namelen, [Call.lwip_getsockname sock name namelen])

/-- `pub fn send` (lines 220-222): returns the raw primitive result. -/
def send (S : LwipStack) (sock : Int) (mem : Ptr) (len : Int) (flags : Int) :
    Int × List Call :=
  (S.lwip_send sock mem len flags, [Call.lwip_send sock mem len flags])

/-- `pub fn sendto` (lines 224-235): calls `lwip_sendto` regardless of socket
type (the stack itself rejects invalid combinations) and returns its result. -/
def sendto (S : LwipStack) (sock : Int) (mem : Ptr) (len : Int) (flags : Int)
    (toa : Ptr) (tolen : Nat) : Int × List Call :=
  (S.lwip_sendto sock mem len flags toa tolen,
   [Call.lwip_sendto sock mem len flags toa tolen])

/-- The Rust cast `len as size_t` applied to an `i32` value: the value modulo
`2 ^ w`, where `w` is the bit width of `size_t`.  `size_t` itself is declared
in the generated bindings file `lwip-rs.rs`, which is not among the sources,
so the width is kept as a parameter. -/
def i32_as_size_t (w : Nat) (len : Int) : Nat :=
  (len % (2 : Int) ^ w).toNat

/-- `pub fn recv` (lines 241-243): forwards with `len as size_t` and returns
the raw primitive result. -/
def recv (w : Nat) (S : LwipStack) (sock : Int) (mem : Ptr) (len : Int)
    (flags : Int) : Int × List Call :=
  (S.lwip_recv sock mem (i32_as_size_t w len) flags,
   [Call.lwip_recv sock mem (i32_as_size_t w len) flags])

/-- `pub fn recvfrom` (lines 245-256): calls `lwip_recvfrom` regardless of
socket type, forwarding with `len as size_t`, and returns its result. -/
def recvfrom (w : Nat) (S : LwipStack) (sock : Int) (mem : Ptr) (len : Int)
    (flags : Int) (fro fromlen : Ptr) : Int × List Call :=
  (S.lwip_recvfrom sock mem (i32_as_size_t w len) flags fro fromlen,
   [Call.lwip_recvfrom sock mem (i32_as_size_t w len) flags fro fromlen])

/-- `pub fn getpeername` (lines 262-264): returns the raw primitive result. -/
def getpeername (S : LwipStack) (sock : Int) (name namelen : Ptr) : Int × List Call :=
  (S.lwip_getpeername sock name namelen, [Call.lwip_getpeername sock name namelen])

/-- `pub fn freeaddrinfo` (lines 275-277): calls `lwip_freeaddrinfo` on the
caller's pointer and returns nothing. -/
def freeaddrinfo (ai : Ptr) : Unit × List Call :=
  ((), [Call.lwip_freeaddrinfo ai])

/-! ## Interface-readiness probe (`src/lib.rs` lines 279-283) -/

/-- Modelled from the spec: the interface descriptor type `netif` of the
default interface `gnetif` is declared in the generated bindings file
`lwip-rs.rs`, which is not among the sources; only the assigned-address
field path `ip_addr.addr` that `is_netif_initialised` reads is modelled,
as an unsigned integer address value. -/
structure ip4_addr where
  addr : Nat
  deriving DecidableEq

/-- Modelled from the spec: the externally-owned default network interface
descriptor, restricted to the field this layer reads. -/
structure netif where
  ip_addr : ip4_addr
  deriving DecidableEq

/-- `pub fn is_netif_initialised` (lines 279-283): reads the descriptor's
assigned address and reports whether it is non-zero. -/
def is_netif_initialised (gnetif : netif) : Bool :=
  gnetif.ip_addr.addr != 0

/-! ## Helper lemma for the binary 0 / -1 convention -/

lemma collapse_cases (r : Int) :
    ((if r = 0 then (0 : Int) else -1) = 0 ↔ r = 0)
    ∧ ((if r = 0 then (0 : Int) else -1) = -1 ↔ r ≠ 0)
    ∧ ((if r = 0 then (0 : Int) else -1) = 0 ∨ (if r = 0 then (0 : Int) else -1) = -1) := by
  by_cases h : r = 0 <;> simp [h]

/-! ## Claim theorems -/

/-- C1: the claim says the accept wrapper returns the underlying result `r`
unchanged, so a positive handle is returned as that positive value.  On this
code the wrapper collapses every non-zero result with the same two-armed
match used by `bind` and `connect`: with the underlying `lwip_accept`
returning the valid handle 5, `accept` returns -1 (and an underlying error
-3 also surfaces as -1, not -3); only the underlying value 0 is returned
unchanged.  The wrapper therefore loses every positive handle, contradicting
the spec. -/
theorem accept_collapses_positive_handles :
    (constStack 5).lwip_accept 0 0 0 = 5
    ∧ (accept (constStack 5) 0 0 0).1 = -1
    ∧ (accept (constStack 0) 0 0 0).1 = 0
    ∧ (accept (constStack (-3)) 0 0 0).1 = -1 :=
  ⟨rfl, by decide, by decide, by decide⟩

/-- C2: `sendto` and `recvfrom` follow the PERMISSIVE policy: each makes
exactly one primitive call, that call is the addressed-I/O primitive itself
with the caller's arguments (the receive length going through the plain
`size_t` cast), no call is a socket-category `getsockopt` query, and the
primitive's result is returned unchanged — for every socket, hence for
stream, datagram and raw sockets alike. -/
theorem sendto_recvfrom_permissive (w : Nat) (S : LwipStack) (sock : Int)
    (mem : Ptr) (len : Int) (flags : Int) (toa : Ptr) (tolen : Nat)
    (fro fromlen : Ptr) :
    sendto S sock mem len flags toa tolen
      = (S.lwip_sendto sock mem len flags toa tolen,
         [Call.lwip_sendto sock mem len flags toa tolen])
    ∧ (sendto S sock mem len flags toa tolen).2.length = 1
    ∧ (sendto S sock mem len flags toa tolen).2.all (fun c => !c.isGetsockopt) = true
    ∧ recvfrom w S sock mem len flags fro fromlen
      = (S.lwip_recvfrom sock mem (i32_as_size_t w len) flags fro fromlen,
         [Call.lwip_recvfrom sock mem (i32_as_size_t w len) flags fro fromlen])
    ∧ (recvfrom w S sock mem len flags fro fromlen).2.length = 1
    ∧ (recvfrom w S sock mem len flags fro fromlen).2.all (fun c => !c.isGetsockopt) = true :=
  ⟨rfl, rfl, rfl, rfl, rfl, rfl⟩

/-- C3: `setsockopt`, `getsockopt`, `bind`, `connect` and `listen` each
return 0 exactly when the underlying primitive returned 0 and -1 exactly
when it returned any non-zero value, and never return anything but 0 or -1;
in particular, on a mock stack whose primitives all return 7, each of the
five wrappers returns -1. -/
theorem binary_convention_wrappers (S : LwipStack) (sock level optname : Int)
    (optval : Ptr) (optlen : Nat) (optvalp optlenp : Ptr)
    (bname : Ptr) (bnamelen : Nat) (cname : Ptr) (cnamelen : Nat) (backlog : Int) :
    (((setsockopt S sock level optname optval optlen).1 = 0
        ↔ S.lwip_setsockopt sock level optname optval optlen = 0)
      ∧ ((setsockopt S sock level optname optval optlen).1 = -1
        ↔ S.lwip_setsockopt sock level optname optval optlen ≠ 0)
      ∧ ((setsockopt S sock level optname optval optlen).1 = 0
        ∨ (setsockopt S sock level optname optval optlen).1 = -1))
    ∧ (((getsockopt S sock level optname optvalp optlenp).1 = 0
        ↔ S.lwip_getsockopt sock level optname optvalp optlenp = 0)
      ∧ ((getsockopt S sock level optname optvalp optlenp).1 = -1
        ↔ S.lwip_getsockopt sock level optname optvalp optlenp ≠ 0)
      ∧ ((getsockopt S sock level optname optvalp optlenp).1 = 0
        ∨ (getsockopt S sock level optname optvalp optlenp).1 = -1))
    ∧ (((bind S sock bname bnamelen).1 = 0 ↔ S.lwip_bind sock bname bnamelen = 0)
      ∧ ((bind S sock bname bnamelen).1 = -1 ↔ S.lwip_bind sock bname bnamelen ≠ 0)
      ∧ ((bind S sock bname bnamelen).1 = 0 ∨ (bind S sock bname bnamelen).1 = -1))
    ∧ (((connect S sock cname cnamelen).1 = 0 ↔ S.lwip_connect sock cname cnamelen = 0)
      ∧ ((connect S sock cname cnamelen).1 = -1 ↔ S.lwip_connect sock cname cnamelen ≠ 0)
      ∧ ((connect S sock cname cnamelen).1 = 0 ∨ (connect S sock cname cnamelen).1 = -1))
    ∧ (((listen S sock backlog).1 = 0 ↔ S.lwip_listen sock backlog = 0)
      ∧ ((listen S sock backlog).1 = -1 ↔ S.lwip_listen sock backlog ≠ 0)
      ∧ ((listen S sock backlog).1 = 0 ∨ (listen S sock backlog).1 = -1))
    ∧ (setsockopt (constStack 7) 0 0 0 0 0).1 = -1
    ∧ (getsockopt (constStack 7) 0 0 0 0 0).1 = -1
    ∧ (bind (constStack 7) 0 0 0).1 = -1
    ∧ (connect (constStack 7) 0 0 0).1 = -1
    ∧ (listen (constStack 7) 0 0).1 = -1 :=
  ⟨collapse_cases _, collapse_cases _, collapse_cases _, collapse_cases _,
   collapse_cases _, by decide, by decide, by decide, by decide, by decide⟩

/-- C4: `is_netif_initialised` is true exactly when the default interface
descriptor's assigned-address field is non-zero and false exactly when that
field is all-zero, and it is a pure read: its value depends only on the
descriptor's address field, so two reads with no intervening change to the
descriptor (equal address fields) return the same value, and no state is
modified (the embedding is a function of the descriptor alone, with an empty
primitive-call trace). -/
theorem is_netif_initialised_iff (g g' : netif)
    (h : g.ip_addr.addr = g'.ip_addr.addr) :
    (is_netif_initialised g = true ↔ g.ip_addr.addr ≠ 0)
    ∧ (is_netif_initialised g = false ↔ g.ip_addr.addr = 0)
    ∧ is_netif_initialised g = is_netif_initialised g' := by
  refine ⟨?_, ?_, ?_⟩ <;> simp [is_netif_initialised, h]

/-- Witness for C4 at the concrete descriptor with address 1. -/
theorem is_netif_initialised_iff_witness :
    (netif.mk (ip4_addr.mk 1)).ip_addr.addr = (netif.mk (ip4_addr.mk 1)).ip_addr.addr
    ∧ ((is_netif_initialised (netif.mk (ip4_addr.mk 1)) = true
          ↔ (netif.mk (ip4_addr.mk 1)).ip_addr.addr ≠ 0)
      ∧ (is_netif_initialised (netif.mk (ip4_addr.mk 1)) = false
          ↔ (netif.mk (ip4_addr.mk 1)).ip_addr.addr = 0)
      ∧ is_netif_initialised (netif.mk (ip4_addr.mk 1))
          = is_netif_initialised (netif.mk (ip4_addr.mk 1))) :=
  ⟨rfl, is_netif_initialised_iff (netif.mk (ip4_addr.mk 1)) (netif.mk (ip4_addr.mk 1)) rfl⟩

/-- C5: the errno constants have the required exact values and the alias
constants are identical to their targets: `ETIMEDOUT = 110`,
`ECONNREFUSED = 111`, `EWOULDBLOCK = EAGAIN = 11` and
`EDEADLOCK = EDEADLK = 35`. -/
theorem errno_alias_values :
    ETIMEDOUT = 110 ∧ ECONNREFUSED = 111
    ∧ EWOULDBLOCK = EAGAIN ∧ EAGAIN = 11
    ∧ EDEADLOCK = EDEADLK ∧ EDEADLK = 35 :=
  ⟨rfl, rfl, rfl, rfl, rfl, rfl⟩

/-- C6: `getsockname` and `getpeername` return the underlying primitive's
result unchanged (one raw pass-through call, no normalisation); in
particular an underlying 7 is returned as 7, unlike the option/bind family. -/
theorem getsockname_getpeername_passthrough (S : LwipStack) (sock : Int)
    (name namelen : Ptr) :
    getsockname S sock name namelen
      = (S.lwip_getsockname sock name namelen,
         [Call.lwip_getsockname sock name namelen])
    ∧ getpeername S sock name namelen
      = (S.lwip_getpeername sock name namelen,
         [Call.lwip_getpeername sock name namelen])
    ∧ (getsockname (constStack 7) 0 0 0).1 = 7
    ∧ (getpeername (constStack 7) 0 0 0).1 = 7 :=
  ⟨rfl, rfl, rfl, rfl⟩

/-- C7: the connection-oriented `send` and `recv` wrappers return the
underlying primitive's result unchanged — a non-negative byte count or a
negative error code is forwarded exactly as the stack reported it, with no
local interpretation; in particular an underlying -7 surfaces as -7. -/
theorem send_recv_passthrough (w : Nat) (S : LwipStack) (sock : Int)
    (mem : Ptr) (len : Int) (flags : Int) :
    send S sock mem len flags
      = (S.lwip_send sock mem len flags, [Call.lwip_send sock mem len flags])
    ∧ recv w S sock mem len flags
      = (S.lwip_recv sock mem (i32_as_size_t w len) flags,
         [Call.lwip_recv sock mem (i32_as_size_t w len) flags])
    ∧ (send (constStack (-7)) 0 0 0 0).1 = -7
    ∧ (recv 32 (constStack (-7)) 0 0 0 0).1 = -7 :=
  ⟨rfl, rfl, rfl, rfl⟩

/-- C8: the socket-creation wrapper forwards address family, socket category
and protocol verbatim to `lwip_socket` in a single call and returns its
result unchanged; in particular on a mock stack whose creation primitive
returns the protocol argument it received, `socket` with protocol 42
returns 42, so the protocol is not forced to a default value. -/
theorem socket_passthrough (S : LwipStack) (family socket_type protocol : Int) :
    socket S family socket_type protocol
      = (S.lwip_socket family socket_type protocol,
         [Call.lwip_socket family socket_type protocol])
    ∧ (socket protoStack 0 0 42).1 = 42 :=
  ⟨rfl, rfl⟩

/-- C9: `recv` and `recvfrom` convert the signed 32-bit length to `size_t`
by the plain cast `len as size_t` before forwarding: for every negative
i32 length and every `size_t` width `w ≥ 32`, the underlying primitive is
still invoked (never rejected or clamped by this layer) and receives the
two's-complement wrapped value `len mod 2 ^ w`, which is at least `2 ^ 31`. -/
theorem recv_recvfrom_negative_length (w : Nat) (S : LwipStack) (sock : Int)
    (mem : Ptr) (len : Int) (flags : Int) (fro fromlen : Ptr)
    (hw : 32 ≤ w) (hlo : -(2 : Int) ^ 31 ≤ len) (hneg : len < 0) :
    recv w S sock mem len flags
      = (S.lwip_recv sock mem ((len % (2 : Int) ^ w).toNat) flags,
         [Call.lwip_recv sock mem ((len % (2 : Int) ^ w).toNat) flags])
    ∧ recvfrom w S sock mem len flags fro fromlen
      = (S.lwip_recvfrom sock mem ((len % (2 : Int) ^ w).toNat) flags fro fromlen,
         [Call.lwip_recvfrom sock mem ((len % (2 : Int) ^ w).toNat) flags fro fromlen])
    ∧ 2 ^ 31 ≤ (len % (2 : Int) ^ w).toNat := by
  refine ⟨rfl, rfl, ?_⟩
  have hWlb : (2 : Int) ^ 32 ≤ (2 : Int) ^ w := pow_le_pow_right₀ (by norm_num) hw
  have h32 : (4294967296 : Int) ≤ (2 : Int) ^ w := by norm_num at hWlb ⊢; exact hWlb
  have hlo' : (-2147483648 : Int) ≤ len := by norm_num at hlo ⊢; exact hlo
  have hnn : 0 ≤ len + (2 : Int) ^ w := by linarith
  have hlt : len + (2 : Int) ^ w < (2 : Int) ^ w := by linarith
  have hshift : (len + (2 : Int) ^ w) % (2 : Int) ^ w = len % (2 : Int) ^ w := by
    have h := Int.add_mul_emod_self_left (a := len) (b := (2 : Int) ^ w) (c := 1)
    rw [mul_one] at h
    exact h
  have hmod : len % (2 : Int) ^ w = len + (2 : Int) ^ w := by
    rw [← hshift]
    exact Int.emod_eq_of_lt hnn hlt
  have hge : (2147483648 : Int) ≤ len % (2 : Int) ^ w := by
    rw [hmod]; linarith
  have h31 : (2 : Nat) ^ 31 = 2147483648 := by norm_num
  rw [h31]
  omega

/-- Witness for C9 at width 32, length -1 on the all-zero mock stack. -/
theorem recv_recvfrom_negative_length_witness :
    (32 ≤ 32 ∧ -(2 : Int) ^ 31 ≤ -1 ∧ (-1 : Int) < 0)
    ∧ (recv 32 (constStack 0) 0 0 (-1) 0
        = ((constStack 0).lwip_recv 0 0 (((-1 : Int) % (2 : Int) ^ 32).toNat) 0,
           [Call.lwip_recv 0 0 (((-1 : Int) % (2 : Int) ^ 32).toNat) 0])
      ∧ recvfrom 32 (constStack 0) 0 0 (-1) 0 0 0
        = ((constStack 0).lwip_recvfrom 0 0 (((-1 : Int) % (2 : Int) ^ 32).toNat) 0 0 0,
           [Call.lwip_recvfrom 0 0 (((-1 : Int) % (2 : Int) ^ 32).toNat) 0 0 0])
      ∧ 2 ^ 31 ≤ (((-1 : Int) % (2 : Int) ^ 32).toNat)) :=
  ⟨⟨by norm_num, by norm_num, by norm_num⟩,
   recv_recvfrom_negative_length 32 (constStack 0) 0 0 (-1) 0 0 0
     (by norm_num) (by norm_num) (by norm_num)⟩

/-- C10: `freeaddrinfo` makes exactly one primitive call, to
`lwip_freeaddrinfo` with the caller's pointer, for every input — including
the null pointer, with no guard of its own — and returns no value. -/
theorem freeaddrinfo_unconditional (ai : Ptr) :
    freeaddrinfo ai = ((), [Call.lwip_freeaddrinfo ai])
    ∧ (freeaddrinfo ai).2.length = 1
    ∧ freeaddrinfo 0 = ((), [Call.lwip_freeaddrinfo 0]) :=
  ⟨rfl, rfl, rfl⟩

end Lwip
